import Mathlib

/-!
Shallow embedding of `llava/model/multimodal_encoder/clip_encoder.py`
(Florence-VL repository): the `CLIPVisionTower` and `FlorenceVisionTower`
wrappers around pretrained vision encoders, and theorems checking the
module's specification against this embedding.

Tensors are modelled structurally: an input image carries a shape, a dtype
and a device; a hidden-state tensor carries its data as a
batch x sequence x hidden nesting of integers together with dtype and
device.  The wrapped pretrained models (`CLIPVisionModel`,
`AutoModelForCausalLM`) are external collaborators; they are modelled as
records holding a dtype, a device, a config, and an abstract forward /
generate function, supplied by an `Env` standing for
`from_pretrained`-style loading.
-/

/-- Torch dtypes that appear in the module (inference dtype, input dtypes). -/
inductive Dtype where
  | float32
  | float16
  | bfloat16
  deriving DecidableEq, Repr

/-- Torch devices. -/
inductive Device where
  | cpu
  | cuda (idx : Nat)
  deriving DecidableEq, Repr

/-- An image processor handle; opaque to this module beyond identity. -/
structure Processor where
  id : String
  deriving DecidableEq, Repr

/-- The configuration fields the module reads (`hidden_size`, `image_size`,
`patch_size`); stands both for `CLIPVisionConfig` and for the config object
of the Florence model. -/
structure VisionConfig where
  hidden_size : Nat
  image_size : Nat
  patch_size : Nat
  deriving DecidableEq, Repr

/-- An input image tensor: shape, dtype, device (pixel values are opaque
to the wrapper, which only moves/casts them and hands them to the model). -/
structure Image where
  shape : List Nat
  dtype : Dtype
  device : Device
  deriving DecidableEq, Repr

/-- Tensor.to(device=..., dtype=...) on an input image. -/
def Image.to (i : Image) (d : Device) (dt : Dtype) : Image :=
  { i with device := d, dtype := dt }

/-- Tensor.unsqueeze(0): prepend a batch dimension of size 1. -/
def Image.unsqueeze0 (i : Image) : Image :=
  { i with shape := 1 :: i.shape }

/-- A hidden-state tensor: data is batch x sequence x hidden. -/
structure HTensor where
  data : List (List (List Int))
  dtype : Dtype
  device : Device
  deriving DecidableEq, Repr

/-- Tensor.to(dtype) on a hidden-state tensor (device unchanged). -/
def HTensor.toDtype (h : HTensor) (dt : Dtype) : HTensor :=
  { h with dtype := dt }

/-- Python list indexing with negative indices (`hidden_states[i]`). -/
def pyIdx {α : Type} (l : List α) (i : Int) : Option α :=
  if 0 ≤ i then l[i.toNat]?
  else
    let j : Int := (l.length : Int) + i
    if 0 ≤ j then l[j.toNat]? else none

/-- Python exceptions the embedded code can raise. -/
inductive PyErr where
  | valueError (msg : String)
  | indexError
  | attributeError
  deriving DecidableEq, Repr

deriving instance DecidableEq for Except

/-- Output of a `CLIPVisionModel` call with `output_hidden_states=True`:
the tuple of per-layer hidden states. -/
structure ForwardOuts where
  hidden_states : List HTensor

/-- The loaded pretrained CLIP vision model: dtype, device, config, and its
forward computation (abstract; external to this repository). -/
structure CLIPModel where
  dtype : Dtype
  device : Device
  config : VisionConfig
  requires_grad : Bool
  run : Image → ForwardOuts

/-- requires_grad_(b) on the CLIP model. -/
def CLIPModel.requires_grad_ (m : CLIPModel) (b : Bool) : CLIPModel :=
  { m with requires_grad := b }

/-- Arguments of the fixed `generate` call made by the Florence tower. -/
structure GenArgs where
  input_ids_data : List (List Nat)
  input_ids_device : Device
  pixel_values : Image
  max_new_tokens : Nat
  do_sample : Bool
  num_beams : Nat

/-- Result of the Florence model's `generate` call, as unpacked by the
tower: generated token ids, encoder feature representation, encoder last
hidden state. -/
structure GenResult where
  generated_ids : List (List Nat)
  image_feature : HTensor
  encoder_last_hidden_state : HTensor

/-- The loaded pretrained Florence sequence model (via
`AutoModelForCausalLM.from_pretrained(...).to(torch.bfloat16)`). -/
structure FlorenceModel where
  dtype : Dtype
  device : Device
  config : VisionConfig
  requires_grad : Bool
  generate : GenArgs → GenResult

/-- Model.to(torch.bfloat16) style dtype cast on the Florence model. -/
def FlorenceModel.toDtype (m : FlorenceModel) (dt : Dtype) : FlorenceModel :=
  { m with dtype := dt }

/-- requires_grad_(b) on the Florence model. -/
def FlorenceModel.requires_grad_ (m : FlorenceModel) (b : Bool) : FlorenceModel :=
  { m with requires_grad := b }

/-- The `from_pretrained` environment: what each loader returns for a given
model name.  Loading failures propagate to the caller unmodified, so a
successful environment suffices for the claims about this module. -/
structure Env where
  clipImageProcessor : String → Processor
  clipVisionModel : String → Option Device → CLIPModel
  clipVisionConfig : String → VisionConfig
  autoProcessor : String → Processor
  autoModelForCausalLM : String → FlorenceModel

/-- Constructor arguments object: `mm_vision_select_layer` is required;
`mm_vision_select_feature` and `unfreeze_mm_vision_tower` are read with
`getattr` defaults, so they are optional. -/
structure Args where
  mm_vision_select_layer : Int
  mm_vision_select_feature : Option String
  unfreeze_mm_vision_tower : Option Bool

/-- The state of a `CLIPVisionTower` instance.  Python attributes that may
be absent (`vision_tower`, `image_processor`, `cfg_only`) are `Option`s;
reading an absent one raises `AttributeError`. -/
structure CLIPVisionTower where
  is_loaded : Bool
  vision_tower_name : String
  select_layer : Int
  select_feature : String
  vision_tower : Option CLIPModel
  image_processor : Option Processor
  cfg_only : Option VisionConfig

/-- Result of a `CLIPVisionTower.load_model` call: the new state, whether
the underlying pretrained loaders ran, and what was printed. -/
structure CLIPLoadResult where
  state : CLIPVisionTower
  loader_invoked : Bool
  logged : List String

/-- CLIPVisionTower.load_model(device_map): no-op with a printed notice when
already loaded; otherwise loads the image processor and the vision model,
freezes its parameters, and sets is_loaded. -/
def CLIPVisionTower.load_model (env : Env) (t : CLIPVisionTower)
    (device_map : Option Device) : CLIPLoadResult :=
  if t.is_loaded then
    { state := t, loader_invoked := false,
      logged := [t.vision_tower_name ++
        " is already loaded, `load_model` called again, skipping."] }
  else
    { state :=
        { t with
          image_processor := some (env.clipImageProcessor t.vision_tower_name),
          vision_tower := some
            ((env.clipVisionModel t.vision_tower_name device_map).requires_grad_ false),
          is_loaded := true },
      loader_invoked := true,
      logged := [] }

/-- CLIPVisionTower.__init__(vision_tower, args, delay_load): records the
name, select layer and select feature, then loads eagerly unless
delay_load is set without unfreeze_mm_vision_tower, in which case only the
config is fetched into cfg_only. -/
def CLIPVisionTower.init (env : Env) (vision_tower : String) (args : Args)
    (delay_load : Bool) : CLIPVisionTower :=
  let t0 : CLIPVisionTower :=
    { is_loaded := false,
      vision_tower_name := vision_tower,
      select_layer := args.mm_vision_select_layer,
      select_feature := args.mm_vision_select_feature.getD "patch",
      vision_tower := none,
      image_processor := none,
      cfg_only := none }
  if ¬ delay_load then
    (t0.load_model env none).state
  else if args.unfreeze_mm_vision_tower.getD false then
    (t0.load_model env none).state
  else
    { t0 with cfg_only := some (env.clipVisionConfig t0.vision_tower_name) }

/-- CLIPVisionTower.feature_select(image_forward_outs): index the hidden
states at select_layer, then keep the patch tokens (dropping the leading
class token) for "patch", the full token set for "cls_patch", and raise a
ValueError naming the value otherwise. -/
def CLIPVisionTower.feature_select (t : CLIPVisionTower)
    (image_forward_outs : ForwardOuts) : Except PyErr HTensor := do
  let image_features ←
    match pyIdx image_forward_outs.hidden_states t.select_layer with
    | some x => Except.ok x
    | none => Except.error PyErr.indexError
  if t.select_feature = "patch" then
    return { image_features with data := image_features.data.map (fun b => b.drop 1) }
  else if t.select_feature = "cls_patch" then
    return image_features
  else
    Except.error (PyErr.valueError ("Unexpected select feature: " ++ t.select_feature))

/-- The images argument of `CLIPVisionTower.forward`: a list of per-image
tensors, or a single batched tensor. -/
inductive ImagesIn where
  | list (ts : List Image)
  | tensor (t : Image)
  deriving DecidableEq, Repr

/-- The feature part of `CLIPVisionTower.forward`'s result: a list of
per-image feature tensors, or a single batched feature tensor. -/
inductive FeaturesOut where
  | list (ts : List HTensor)
  | tensor (t : HTensor)
  deriving DecidableEq, Repr

/-- The loop body of `CLIPVisionTower.forward` over a list input: for each
image, run the model on the image moved to the model's device/dtype and
unsqueezed to a batch of one, select features, cast back to the image's
dtype, and append. -/
def CLIPVisionTower.forwardList (t : CLIPVisionTower) (m : CLIPModel) :
    List Image → Except PyErr (List HTensor)
  | [] => Except.ok []
  | image :: rest => do
      let image_forward_out := m.run ((image.to m.device m.dtype).unsqueeze0)
      let image_feature ← t.feature_select image_forward_out
      let fs ← t.forwardList m rest
      return image_feature.toDtype image.dtype :: fs

/-- CLIPVisionTower.forward(images): for a list input, loop over the images
with `forwardList`; for a batched tensor input run the model once without
unsqueezing, select features, and cast back to the input's dtype.  The
Python code ends with `return image_features, image_features`: the result
is a pair holding the features twice.  `self.device` and `self.dtype`
delegate to the loaded model, so reading them (or calling
`self.vision_tower`) on an unloaded tower raises AttributeError. -/
def CLIPVisionTower.forward (t : CLIPVisionTower) (images : ImagesIn) :
    Except PyErr (FeaturesOut × FeaturesOut) := do
  let m ←
    match t.vision_tower with
    | some m => Except.ok m
    | none => Except.error PyErr.attributeError
  match images with
  | ImagesIn.list imgs =>
      let image_features ← t.forwardList m imgs
      return (FeaturesOut.list image_features, FeaturesOut.list image_features)
  | ImagesIn.tensor images0 =>
      let image_forward_outs := m.run (images0.to m.device m.dtype)
      let image_features ← t.feature_select image_forward_outs
      let image_features := image_features.toDtype images0.dtype
      return (FeaturesOut.tensor image_features, FeaturesOut.tensor image_features)

/-- CLIPVisionTower.dtype property: the loaded model's dtype. -/
def CLIPVisionTower.dtype (t : CLIPVisionTower) : Option Dtype :=
  t.vision_tower.map (fun m => m.dtype)

/-- CLIPVisionTower.device property: the loaded model's device. -/
def CLIPVisionTower.device (t : CLIPVisionTower) : Option Device :=
  t.vision_tower.map (fun m => m.device)

/-- CLIPVisionTower.config property: the live model config when loaded,
the cached cfg_only otherwise. -/
def CLIPVisionTower.config (t : CLIPVisionTower) : Option VisionConfig :=
  if t.is_loaded then t.vision_tower.map (fun m => m.config)
  else t.cfg_only

/-- CLIPVisionTower.hidden_size property. -/
def CLIPVisionTower.hidden_size (t : CLIPVisionTower) : Option Nat :=
  t.config.map (fun c => c.hidden_size)

/-- CLIPVisionTower.num_patches_per_side property:
config.image_size // config.patch_size. -/
def CLIPVisionTower.num_patches_per_side (t : CLIPVisionTower) : Option Nat :=
  t.config.map (fun c => c.image_size / c.patch_size)

/-- CLIPVisionTower.num_patches property:
(config.image_size // config.patch_size) ** 2. -/
def CLIPVisionTower.num_patches (t : CLIPVisionTower) : Option Nat :=
  t.config.map (fun c => (c.image_size / c.patch_size) ^ 2)

/-- A dummy-feature tensor: torch.zeros(1, hidden_size, device=..., dtype=...). -/
structure ZeroFeature where
  data : List (List Int)
  dtype : Dtype
  device : Device
  deriving DecidableEq, Repr

/-- CLIPVisionTower.dummy_feature property: a [1, hidden_size] zero tensor
at the loaded model's device and dtype. -/
def CLIPVisionTower.dummy_feature (t : CLIPVisionTower) : Option ZeroFeature := do
  let hs ← t.hidden_size
  let dt ← t.dtype
  let dv ← t.device
  return { data := [List.replicate hs 0], dtype := dt, device := dv }

/-- States of a CLIPVisionTower reachable through its public lifecycle:
construction, followed by any number of load_model calls (forward and the
property accessors do not mutate the state). -/
inductive CLIPVisionTower.Reachable (env : Env) : CLIPVisionTower → Prop where
  | ctor (name : String) (args : Args) (delay_load : Bool) :
      CLIPVisionTower.Reachable env (CLIPVisionTower.init env name args delay_load)
  | load (t : CLIPVisionTower) (device_map : Option Device) :
      CLIPVisionTower.Reachable env t →
      CLIPVisionTower.Reachable env (t.load_model env device_map).state

/-- The state of a `FlorenceVisionTower` instance.  Note the class never
assigns `cfg_only` anywhere, so that attribute can only be absent. -/
structure FlorenceVisionTower where
  is_loaded : Bool
  vision_tower_name : String
  vision_tower : Option FlorenceModel
  image_processor : Option Processor
  cfg_only : Option VisionConfig

/-- Result of a `FlorenceVisionTower.load_model` call. -/
structure FlorenceLoadResult where
  state : FlorenceVisionTower
  loader_invoked : Bool
  logged : List String

/-- FlorenceVisionTower.load_model(device_map): no-op with a printed notice
when already loaded; otherwise loads the processor and the model (cast to
bfloat16), freezes its parameters, and sets is_loaded.  The device_map
parameter is accepted but unused by the source. -/
def FlorenceVisionTower.load_model (env : Env) (t : FlorenceVisionTower)
    (_device_map : Option Device) : FlorenceLoadResult :=
  if t.is_loaded then
    { state := t, loader_invoked := false,
      logged := [t.vision_tower_name ++
        " is already loaded, `load_model` called again, skipping."] }
  else
    { state :=
        { t with
          image_processor := some (env.autoProcessor t.vision_tower_name),
          vision_tower := some
            (((env.autoModelForCausalLM t.vision_tower_name).toDtype
                Dtype.bfloat16).requires_grad_ false),
          is_loaded := true },
      loader_invoked := true,
      logged := [] }

/-- Result of FlorenceVisionTower.__init__: the constructed state, and
whether the constructor called load_model. -/
structure FlorenceInitResult where
  state : FlorenceVisionTower
  load_model_called : Bool

/-- FlorenceVisionTower.__init__(vision_tower, args, delay_load): records
the name, then calls load_model in all three branches of the
delay_load / unfreeze_mm_vision_tower conditional. -/
def FlorenceVisionTower.init (env : Env) (vision_tower : String) (args : Args)
    (delay_load : Bool) : FlorenceInitResult :=
  let t0 : FlorenceVisionTower :=
    { is_loaded := false,
      vision_tower_name := vision_tower,
      vision_tower := none,
      image_processor := none,
      cfg_only := none }
  if ¬ delay_load then
    { state := (t0.load_model env none).state, load_model_called := true }
  else if args.unfreeze_mm_vision_tower.getD false then
    { state := (t0.load_model env none).state, load_model_called := true }
  else
    { state := (t0.load_model env none).state, load_model_called := true }

/-- The hard-coded batch of instruction-token sequences used as the
decoding prompt in FlorenceVisionTower.forward (the active, uncommented
task_ids tensor). -/
def florence_task_ids : List (List Nat) :=
  [[0, 47066, 21700, 11, 4617, 99, 16, 2343, 11, 5, 2274, 4, 2, 1],
   [0, 2264, 16, 5, 2788, 11, 5, 2274, 116, 2, 1, 1, 1, 1],
   [0, 574, 22486, 5, 8720, 11, 5, 2274, 6, 19, 49, 24173, 4, 2]]

/-- The GenArgs FlorenceVisionTower.forward passes to generate: the fixed
task_ids moved to the model's device, the raw images as pixel_values,
max_new_tokens=1, do_sample=False, num_beams=1. -/
def florenceGenArgs (m : FlorenceModel) (images : Image) : GenArgs :=
  { input_ids_data := florence_task_ids,
    input_ids_device := m.device,
    pixel_values := images,
    max_new_tokens := 1,
    do_sample := false,
    num_beams := 1 }

/-- FlorenceVisionTower.forward(images): run a single-step greedy
generation with the fixed task prompt, unpack (generated_ids,
image_feature, encoder_last_hidden_state), and return the pair
(image_feature, encoder_last_hidden_state). -/
def FlorenceVisionTower.forward (t : FlorenceVisionTower) (images : Image) :
    Except PyErr (HTensor × HTensor) := do
  let m ←
    match t.vision_tower with
    | some m => Except.ok m
    | none => Except.error PyErr.attributeError
  let r := m.generate (florenceGenArgs m images)
  return (r.image_feature, r.encoder_last_hidden_state)

/-- FlorenceVisionTower.dtype property: the loaded model's dtype. -/
def FlorenceVisionTower.dtype (t : FlorenceVisionTower) : Option Dtype :=
  t.vision_tower.map (fun m => m.dtype)

/-- FlorenceVisionTower.device property: the loaded model's device. -/
def FlorenceVisionTower.device (t : FlorenceVisionTower) : Option Device :=
  t.vision_tower.map (fun m => m.device)

/-- FlorenceVisionTower.config property: the live model config when loaded,
the cached cfg_only otherwise. -/
def FlorenceVisionTower.config (t : FlorenceVisionTower) : Option VisionConfig :=
  if t.is_loaded then t.vision_tower.map (fun m => m.config)
  else t.cfg_only

/-- FlorenceVisionTower.hidden_size property. -/
def FlorenceVisionTower.hidden_size (t : FlorenceVisionTower) : Option Nat :=
  t.config.map (fun c => c.hidden_size)

/-- FlorenceVisionTower.num_patches_per_side property:
config.image_size // config.patch_size. -/
def FlorenceVisionTower.num_patches_per_side (t : FlorenceVisionTower) : Option Nat :=
  t.config.map (fun c => c.image_size / c.patch_size)

/-- FlorenceVisionTower.num_patches property:
(config.image_size // config.patch_size) ** 2. -/
def FlorenceVisionTower.num_patches (t : FlorenceVisionTower) : Option Nat :=
  t.config.map (fun c => (c.image_size / c.patch_size) ^ 2)

/-- FlorenceVisionTower.dummy_feature property: a [1, hidden_size] zero
tensor at the loaded model's device and dtype. -/
def FlorenceVisionTower.dummy_feature (t : FlorenceVisionTower) : Option ZeroFeature := do
  let hs ← t.hidden_size
  let dt ← t.dtype
  let dv ← t.device
  return { data := [List.replicate hs 0], dtype := dt, device := dv }

/-- States of a FlorenceVisionTower reachable through its public lifecycle:
construction, followed by any number of load_model calls (forward and the
property accessors do not mutate the state). -/
inductive FlorenceVisionTower.Reachable (env : Env) : FlorenceVisionTower → Prop where
  | ctor (name : String) (args : Args) (delay_load : Bool) :
      FlorenceVisionTower.Reachable env
        (FlorenceVisionTower.init env name args delay_load).state
  | load (t : FlorenceVisionTower) (device_map : Option Device) :
      FlorenceVisionTower.Reachable env t →
      FlorenceVisionTower.Reachable env (t.load_model env device_map).state

/-! Concrete instances used to exercise the definitions. -/

/-- A small concrete vision config. -/
def sampleConfig : VisionConfig :=
  { hidden_size := 4, image_size := 8, patch_size := 2 }

/-- Hidden state of layer 0 of the concrete model (batch 1, seq 3, hidden 2). -/
def sampleHidden0 : HTensor :=
  { data := [[[0, 0], [0, 1], [0, 2]]], dtype := Dtype.float16, device := Device.cpu }

/-- Hidden state of layer 1 of the concrete model. -/
def sampleHidden1 : HTensor :=
  { data := [[[1, 0], [1, 1], [1, 2]]], dtype := Dtype.float16, device := Device.cpu }

/-- Hidden state of layer 2 of the concrete model. -/
def sampleHidden2 : HTensor :=
  { data := [[[2, 0], [2, 1], [2, 2]]], dtype := Dtype.float16, device := Device.cpu }

/-- The hidden-states tuple the concrete CLIP model returns on every input. -/
def sampleOuts : ForwardOuts :=
  { hidden_states := [sampleHidden0, sampleHidden1, sampleHidden2] }

/-- A concrete CLIP model with three hidden-state layers. -/
def sampleCLIPModel : CLIPModel :=
  { dtype := Dtype.float16, device := Device.cpu, config := sampleConfig,
    requires_grad := false, run := fun _ => sampleOuts }

/-- A concrete Florence model. -/
def sampleFlorenceModel : FlorenceModel :=
  { dtype := Dtype.bfloat16, device := Device.cpu, config := sampleConfig,
    requires_grad := false,
    generate := fun _ =>
      { generated_ids := [[2], [2], [2]],
        image_feature := sampleHidden1,
        encoder_last_hidden_state := sampleHidden2 } }

/-- A concrete loading environment. -/
def sampleEnv : Env :=
  { clipImageProcessor := fun n => { id := n },
    clipVisionModel := fun _ _ => sampleCLIPModel,
    clipVisionConfig := fun _ => sampleConfig,
    autoProcessor := fun n => { id := n },
    autoModelForCausalLM := fun _ => sampleFlorenceModel }

/-- Concrete constructor arguments (select layer -2, feature "patch"). -/
def sampleArgs : Args :=
  { mm_vision_select_layer := -2,
    mm_vision_select_feature := some "patch",
    unfreeze_mm_vision_tower := none }

/-- A concrete loaded CLIP tower with select_feature "patch". -/
def towerPatch : CLIPVisionTower :=
  { is_loaded := true, vision_tower_name := "clip", select_layer := -2,
    select_feature := "patch", vision_tower := some sampleCLIPModel,
    image_processor := some { id := "clip" }, cfg_only := none }

/-- The same tower with an unrecognized select_feature. -/
def towerBad : CLIPVisionTower :=
  { towerPatch with select_feature := "mlp" }

/-- A concrete input image tensor. -/
def sampleImage : Image :=
  { shape := [3, 8, 8], dtype := Dtype.float32, device := Device.cpu }

/-- The feature `towerPatch.forward` produces on `sampleImage`: layer -2 of
the model's hidden states, first sequence token dropped, cast to the
input's dtype. -/
def samplePatchFeature : HTensor :=
  { data := [[[1, 1], [1, 2]]], dtype := Dtype.float32, device := Device.cpu }

/-- A concrete loaded Florence tower. -/
def florenceTower : FlorenceVisionTower :=
  { is_loaded := true, vision_tower_name := "florence",
    vision_tower := some sampleFlorenceModel,
    image_processor := some { id := "florence" }, cfg_only := none }

/-- Bind on Except after a success. -/
theorem except_bind_ok {ε α β : Type} (a : α) (f : α → Except ε β) :
    (Except.ok a >>= f) = f a := rfl

/-- Bind on Except after a failure. -/
theorem except_bind_error {ε α β : Type} (e : ε) (f : α → Except ε β) :
    ((Except.error e : Except ε α) >>= f) = Except.error e := rfl

/-- C3: calling load_model a second time on an already-loaded tower is a
no-op that logs a notice: after any first load_model call the tower is
loaded, and a second call returns the state unchanged (hence processor and
model fields unchanged), does not invoke the underlying pretrained loader,
and prints the already-loaded notice.  Holds for both towers. -/
theorem load_model_idempotent :
    (∀ (env : Env) (t : CLIPVisionTower) (dm1 dm2 : Option Device),
      ((t.load_model env dm1).state.load_model env dm2).state =
        (t.load_model env dm1).state ∧
      ((t.load_model env dm1).state.load_model env dm2).state.is_loaded = true ∧
      ((t.load_model env dm1).state.load_model env dm2).loader_invoked = false ∧
      ((t.load_model env dm1).state.load_model env dm2).logged =
        [(t.load_model env dm1).state.vision_tower_name ++
          " is already loaded, `load_model` called again, skipping."]) ∧
    (∀ (env : Env) (t : FlorenceVisionTower) (dm1 dm2 : Option Device),
      ((t.load_model env dm1).state.load_model env dm2).state =
        (t.load_model env dm1).state ∧
      ((t.load_model env dm1).state.load_model env dm2).state.is_loaded = true ∧
      ((t.load_model env dm1).state.load_model env dm2).loader_invoked = false ∧
      ((t.load_model env dm1).state.load_model env dm2).logged =
        [(t.load_model env dm1).state.vision_tower_name ++
          " is already loaded, `load_model` called again, skipping."]) := by
  constructor
  · intro env t dm1 dm2
    by_cases h : t.is_loaded <;>
      refine ⟨?_, ?_, ?_, ?_⟩ <;> simp [CLIPVisionTower.load_model, h]
  · intro env t dm1 dm2
    by_cases h : t.is_loaded <;>
      refine ⟨?_, ?_, ?_, ?_⟩ <;> simp [FlorenceVisionTower.load_model, h]

/-- C10: the FlorenceVisionTower constructor invokes load_model in every
branch, regardless of delay_load and unfreeze_mm_vision_tower; as a
consequence after construction is_loaded is true, no cached pre-load
config (cfg_only) is ever set, and the model is loaded. -/
theorem florence_init_always_loads :
    ∀ (env : Env) (name : String) (args : Args) (delay_load : Bool),
      (FlorenceVisionTower.init env name args delay_load).load_model_called = true ∧
      (FlorenceVisionTower.init env name args delay_load).state.is_loaded = true ∧
      (FlorenceVisionTower.init env name args delay_load).state.cfg_only = none ∧
      (FlorenceVisionTower.init env name args delay_load).state.vision_tower =
        some (((env.autoModelForCausalLM name).toDtype Dtype.bfloat16).requires_grad_
          false) := by
  intro env name args delay_load
  by_cases hd : delay_load <;>
    by_cases hu : args.unfreeze_mm_vision_tower.getD false <;>
      simp [FlorenceVisionTower.init, FlorenceVisionTower.load_model, hd, hu]

/-- C6: for every loaded tower, num_patches_per_side is the config's
image_size integer-divided by its patch_size, and num_patches is
num_patches_per_side squared.  Holds for both towers. -/
theorem num_patches_geometry :
    (∀ (t : CLIPVisionTower) (c : VisionConfig),
      t.is_loaded = true → t.config = some c →
      t.num_patches_per_side = some (c.image_size / c.patch_size) ∧
      t.num_patches = some ((c.image_size / c.patch_size) ^ 2) ∧
      t.num_patches = t.num_patches_per_side.map (fun n => n ^ 2)) ∧
    (∀ (t : FlorenceVisionTower) (c : VisionConfig),
      t.is_loaded = true → t.config = some c →
      t.num_patches_per_side = some (c.image_size / c.patch_size) ∧
      t.num_patches = some ((c.image_size / c.patch_size) ^ 2) ∧
      t.num_patches = t.num_patches_per_side.map (fun n => n ^ 2)) := by
  constructor
  · intro t c _ hc
    refine ⟨?_, ?_, ?_⟩ <;>
      simp [CLIPVisionTower.num_patches_per_side, CLIPVisionTower.num_patches, hc]
  · intro t c _ hc
    refine ⟨?_, ?_, ?_⟩ <;>
      simp [FlorenceVisionTower.num_patches_per_side, FlorenceVisionTower.num_patches, hc]

/-- C6 witness: the geometry identities evaluated on the concrete loaded
towers. -/
theorem num_patches_geometry_witness :
    (towerPatch.num_patches_per_side =
        some (sampleConfig.image_size / sampleConfig.patch_size) ∧
      towerPatch.num_patches =
        some ((sampleConfig.image_size / sampleConfig.patch_size) ^ 2) ∧
      towerPatch.num_patches = towerPatch.num_patches_per_side.map (fun n => n ^ 2)) ∧
    (florenceTower.num_patches_per_side =
        some (sampleConfig.image_size / sampleConfig.patch_size) ∧
      florenceTower.num_patches =
        some ((sampleConfig.image_size / sampleConfig.patch_size) ^ 2) ∧
      florenceTower.num_patches = florenceTower.num_patches_per_side.map (fun n => n ^ 2)) :=
  ⟨num_patches_geometry.1 towerPatch sampleConfig rfl rfl,
   num_patches_geometry.2 florenceTower sampleConfig rfl rfl⟩

/-- C9: for every loaded tower, dummy_feature is a zero tensor of shape
[1, hidden_size] (one row of hidden_size zeros) with the loaded model's
dtype and device.  Holds for both towers. -/
theorem dummy_feature_zero_shape :
    (∀ (t : CLIPVisionTower) (m : CLIPModel),
      t.is_loaded = true → t.vision_tower = some m →
      t.dummy_feature = some
        { data := [List.replicate m.config.hidden_size 0],
          dtype := m.dtype, device := m.device }) ∧
    (∀ (t : FlorenceVisionTower) (m : FlorenceModel),
      t.is_loaded = true → t.vision_tower = some m →
      t.dummy_feature = some
        { data := [List.replicate m.config.hidden_size 0],
          dtype := m.dtype, device := m.device }) := by
  constructor
  · intro t m hl hv
    simp [CLIPVisionTower.dummy_feature, CLIPVisionTower.hidden_size,
      CLIPVisionTower.dtype, CLIPVisionTower.device, CLIPVisionTower.config, hl, hv]
  · intro t m hl hv
    simp [FlorenceVisionTower.dummy_feature, FlorenceVisionTower.hidden_size,
      FlorenceVisionTower.dtype, FlorenceVisionTower.device, FlorenceVisionTower.config,
      hl, hv]

/-- C9 witness: dummy_feature evaluated on the concrete loaded towers. -/
theorem dummy_feature_zero_shape_witness :
    towerPatch.dummy_feature = some
      { data := [List.replicate sampleCLIPModel.config.hidden_size 0],
        dtype := sampleCLIPModel.dtype, device := sampleCLIPModel.device } ∧
    florenceTower.dummy_feature = some
      { data := [List.replicate sampleFlorenceModel.config.hidden_size 0],
        dtype := sampleFlorenceModel.dtype, device := sampleFlorenceModel.device } :=
  ⟨dummy_feature_zero_shape.1 towerPatch sampleCLIPModel rfl rfl,
   dummy_feature_zero_shape.2 florenceTower sampleFlorenceModel rfl rfl⟩

/-- C8: FlorenceVisionTower.forward always calls generate with the fixed
hard-coded instruction-token batch (moved to the model's device) as
prompt, the raw images as pixel_values, a budget of one new token, no
sampling, beam width 1, and returns the pair (encoder feature
representation, encoder last hidden state) from the unpacked result, not
the generated token ids. -/
theorem florence_forward_generation :
    ∀ (t : FlorenceVisionTower) (m : FlorenceModel) (images : Image),
      t.vision_tower = some m →
      t.forward images =
        Except.ok ((m.generate (florenceGenArgs m images)).image_feature,
                   (m.generate (florenceGenArgs m images)).encoder_last_hidden_state) ∧
      (florenceGenArgs m images).input_ids_data = florence_task_ids ∧
      (florenceGenArgs m images).input_ids_device = m.device ∧
      (florenceGenArgs m images).pixel_values = images ∧
      (florenceGenArgs m images).max_new_tokens = 1 ∧
      (florenceGenArgs m images).do_sample = false ∧
      (florenceGenArgs m images).num_beams = 1 := by
  intro t m images hv
  refine ⟨?_, rfl, rfl, rfl, rfl, rfl, rfl⟩
  unfold FlorenceVisionTower.forward
  rw [hv]
  rfl

/-- C8 witness: the generate call contract evaluated on the concrete
loaded Florence tower. -/
theorem florence_forward_generation_witness :
    florenceTower.forward sampleImage =
      Except.ok
        ((sampleFlorenceModel.generate
            (florenceGenArgs sampleFlorenceModel sampleImage)).image_feature,
         (sampleFlorenceModel.generate
            (florenceGenArgs sampleFlorenceModel sampleImage)).encoder_last_hidden_state) ∧
    (florenceGenArgs sampleFlorenceModel sampleImage).input_ids_data = florence_task_ids ∧
    (florenceGenArgs sampleFlorenceModel sampleImage).input_ids_device =
      sampleFlorenceModel.device ∧
    (florenceGenArgs sampleFlorenceModel sampleImage).pixel_values = sampleImage ∧
    (florenceGenArgs sampleFlorenceModel sampleImage).max_new_tokens = 1 ∧
    (florenceGenArgs sampleFlorenceModel sampleImage).do_sample = false ∧
    (florenceGenArgs sampleFlorenceModel sampleImage).num_beams = 1 :=
  florence_forward_generation florenceTower sampleFlorenceModel sampleImage rfl

/-- C4: on any forward-pass hidden states where indexing at the configured
select_layer yields h, feature selection with "cls_patch" returns h
unchanged, and feature selection with "patch" returns h with exactly the
first token along the sequence dimension removed (in every batch row). -/
theorem feature_select_patch_vs_cls :
    ∀ (t : CLIPVisionTower) (outs : ForwardOuts) (h : HTensor),
      pyIdx outs.hidden_states t.select_layer = some h →
      ({ t with select_feature := "cls_patch" } : CLIPVisionTower).feature_select outs =
        Except.ok h ∧
      ({ t with select_feature := "patch" } : CLIPVisionTower).feature_select outs =
        Except.ok { h with data := h.data.map (fun b => b.drop 1) } := by
  intro t outs h hidx
  constructor <;> simp [CLIPVisionTower.feature_select, hidx]

/-- C4 witness: the two selection modes evaluated on the concrete model's
hidden states at layer -2. -/
theorem feature_select_patch_vs_cls_witness :
    ({ towerPatch with select_feature := "cls_patch" } : CLIPVisionTower).feature_select
        sampleOuts = Except.ok sampleHidden1 ∧
    ({ towerPatch with select_feature := "patch" } : CLIPVisionTower).feature_select
        sampleOuts =
      Except.ok { sampleHidden1 with
        data := sampleHidden1.data.map (fun b => b.drop 1) } :=
  feature_select_patch_vs_cls towerPatch sampleOuts sampleHidden1 (by decide)

/-- Feature selection with an unrecognized select_feature raises a
ValueError whose message names the offending value (once indexing the
hidden states at select_layer succeeded, as it does before the check in
the source). -/
theorem feature_select_invalid (t : CLIPVisionTower) (outs : ForwardOuts)
    (h : HTensor) (hidx : pyIdx outs.hidden_states t.select_layer = some h)
    (h1 : t.select_feature ≠ "patch") (h2 : t.select_feature ≠ "cls_patch") :
    t.feature_select outs =
      Except.error (PyErr.valueError
        ("Unexpected select feature: " ++ t.select_feature)) := by
  simp [CLIPVisionTower.feature_select, hidx, h1, h2]
  rfl

/-- C5: for a loaded tower and a batched tensor input whose forward pass
produces hidden states that index correctly at select_layer, forward with
a select_feature other than "patch" and "cls_patch" raises a ValueError
whose message names the offending select_feature value, while with
"patch" or "cls_patch" forward succeeds (no error). -/
theorem forward_invalid_select_feature :
    ∀ (t : CLIPVisionTower) (m : CLIPModel) (img : Image) (h : HTensor),
      t.vision_tower = some m →
      pyIdx (m.run (img.to m.device m.dtype)).hidden_states t.select_layer = some h →
      ((t.select_feature ≠ "patch" ∧ t.select_feature ≠ "cls_patch") →
        t.forward (ImagesIn.tensor img) =
          Except.error (PyErr.valueError
            ("Unexpected select feature: " ++ t.select_feature))) ∧
      ((t.select_feature = "patch" ∨ t.select_feature = "cls_patch") →
        ∃ out, t.forward (ImagesIn.tensor img) = Except.ok out) := by
  intro t m img h hv hidx
  constructor
  · rintro ⟨h1, h2⟩
    unfold CLIPVisionTower.forward
    rw [hv]
    show (t.feature_select (m.run (img.to m.device m.dtype)) >>= fun f =>
      Except.ok (FeaturesOut.tensor (f.toDtype img.dtype),
                 FeaturesOut.tensor (f.toDtype img.dtype))) = _
    rw [feature_select_invalid t _ h hidx h1 h2]
    rfl
  · intro hs
    unfold CLIPVisionTower.forward
    rw [hv]
    show (∃ out, (t.feature_select (m.run (img.to m.device m.dtype)) >>= fun f =>
      Except.ok (FeaturesOut.tensor (f.toDtype img.dtype),
                 FeaturesOut.tensor (f.toDtype img.dtype))) = Except.ok out)
    rcases hs with hp | hc
    · refine ⟨(FeaturesOut.tensor (({ h with
          data := h.data.map (fun b => b.drop 1) } : HTensor).toDtype img.dtype),
        FeaturesOut.tensor (({ h with
          data := h.data.map (fun b => b.drop 1) } : HTensor).toDtype img.dtype)), ?_⟩
      have : t.feature_select (m.run (img.to m.device m.dtype)) =
          Except.ok { h with data := h.data.map (fun b => b.drop 1) } := by
        simp [CLIPVisionTower.feature_select, hidx, hp]
      rw [this]
      rfl
    · refine ⟨(FeaturesOut.tensor (h.toDtype img.dtype),
        FeaturesOut.tensor (h.toDtype img.dtype)), ?_⟩
      have : t.feature_select (m.run (img.to m.device m.dtype)) = Except.ok h := by
        simp [CLIPVisionTower.feature_select, hidx, hc]
      rw [this]
      rfl

/-- C5 witness: forward on the concrete tower with select_feature "mlp"
raises the ValueError naming "mlp". -/
theorem forward_invalid_select_feature_witness :
    towerBad.forward (ImagesIn.tensor sampleImage) =
      Except.error (PyErr.valueError
        ("Unexpected select feature: " ++ towerBad.select_feature)) :=
  (forward_invalid_select_feature towerBad sampleCLIPModel sampleImage sampleHidden1
    rfl (by decide)).1 (by decide)

/-- Over a list input, every feature the forward loop produces has the
dtype of its corresponding input image (the loop casts each selected
feature back with .to(image.dtype)). -/
theorem forwardList_dtype (t : CLIPVisionTower) (m : CLIPModel) :
    ∀ (imgs : List Image) (fs : List HTensor),
      t.forwardList m imgs = Except.ok fs →
      List.Forall₂ (fun h i => h.dtype = i.dtype) fs imgs := by
  intro imgs
  induction imgs with
  | nil =>
      intro fs hfs
      unfold CLIPVisionTower.forwardList at hfs
      cases hfs
      exact List.Forall₂.nil
  | cons im rest ih =>
      intro fs hfs
      unfold CLIPVisionTower.forwardList at hfs
      replace hfs :
          (t.feature_select (m.run ((im.to m.device m.dtype).unsqueeze0)) >>= fun f =>
            t.forwardList m rest >>= fun fs' =>
              Except.ok (f.toDtype im.dtype :: fs')) = Except.ok fs := hfs
      cases hfe : t.feature_select (m.run ((im.to m.device m.dtype).unsqueeze0)) with
      | error e =>
          rw [hfe] at hfs
          exact absurd hfs (by simp [except_bind_error])
      | ok f =>
          rw [hfe, except_bind_ok] at hfs
          cases hrest : t.forwardList m rest with
          | error e =>
              rw [hrest] at hfs
              exact absurd hfs (by simp [except_bind_error])
          | ok fs' =>
              rw [hrest, except_bind_ok] at hfs
              cases hfs
              exact List.Forall₂.cons rfl (ih fs' hrest)

/-- C7: the dtype of each feature tensor returned by CLIPVisionTower.forward
equals the dtype of the corresponding input image tensor: for a batched
tensor input both components of the returned pair carry the input's
dtype, and for a list input the feature list matches the input list
dtype-wise elementwise. -/
theorem forward_dtype_matches_input :
    ∀ (t : CLIPVisionTower),
      (∀ (img : Image) (f g : HTensor),
        t.forward (ImagesIn.tensor img) =
          Except.ok (FeaturesOut.tensor f, FeaturesOut.tensor g) →
        f.dtype = img.dtype ∧ g.dtype = img.dtype) ∧
      (∀ (imgs : List Image) (fs gs : List HTensor),
        t.forward (ImagesIn.list imgs) =
          Except.ok (FeaturesOut.list fs, FeaturesOut.list gs) →
        List.Forall₂ (fun h i => h.dtype = i.dtype) fs imgs) := by
  intro t
  constructor
  · intro img f g hfwd
    unfold CLIPVisionTower.forward at hfwd
    cases hv : t.vision_tower with
    | none =>
        rw [hv] at hfwd
        exact absurd hfwd (by simp [except_bind_error])
    | some m =>
        rw [hv] at hfwd
        replace hfwd :
            (t.feature_select (m.run (img.to m.device m.dtype)) >>= fun h =>
              Except.ok (FeaturesOut.tensor (h.toDtype img.dtype),
                         FeaturesOut.tensor (h.toDtype img.dtype))) =
            Except.ok (FeaturesOut.tensor f, FeaturesOut.tensor g) := hfwd
        cases hfe : t.feature_select (m.run (img.to m.device m.dtype)) with
        | error e =>
            rw [hfe] at hfwd
            exact absurd hfwd (by simp [except_bind_error])
        | ok h =>
            rw [hfe, except_bind_ok] at hfwd
            injection hfwd with hpair
            injection hpair with hfst hsnd
            injection hfst with hf
            injection hsnd with hg
            rw [← hf, ← hg]
            exact ⟨rfl, rfl⟩
  · intro imgs fs gs hfwd
    unfold CLIPVisionTower.forward at hfwd
    cases hv : t.vision_tower with
    | none =>
        rw [hv] at hfwd
        exact absurd hfwd (by simp [except_bind_error])
    | some m =>
        rw [hv] at hfwd
        replace hfwd :
            (t.forwardList m imgs >>= fun l =>
              Except.ok (FeaturesOut.list l, FeaturesOut.list l)) =
            Except.ok (FeaturesOut.list fs, FeaturesOut.list gs) := hfwd
        cases hl : t.forwardList m imgs with
        | error e =>
            rw [hl] at hfwd
            exact absurd hfwd (by simp [except_bind_error])
        | ok l =>
            rw [hl, except_bind_ok] at hfwd
            injection hfwd with hpair
            injection hpair with hfst hsnd
            injection hfst with hf
            rw [← hf]
            exact forwardList_dtype t m imgs l hl

/-- C7 witness: dtype preservation evaluated at the concrete tower, for a
batched float32 input and for a one-image list input. -/
theorem forward_dtype_matches_input_witness :
    (samplePatchFeature.dtype = sampleImage.dtype ∧
     samplePatchFeature.dtype = sampleImage.dtype) ∧
    List.Forall₂ (fun (h : HTensor) (i : Image) => h.dtype = i.dtype)
      [samplePatchFeature] [sampleImage] :=
  ⟨(forward_dtype_matches_input towerPatch).1 sampleImage samplePatchFeature
      samplePatchFeature (by decide),
   (forward_dtype_matches_input towerPatch).2 [sampleImage] [samplePatchFeature]
      [samplePatchFeature] (by decide)⟩

/-- C1 counterexample: on a concrete loaded tower and a concrete batched
image tensor, CLIPVisionTower.forward returns a 2-tuple holding the
feature tensor twice (`return image_features, image_features` in the
source), not a bare feature tensor: the claim that the output is a single
feature tensor and never a tuple or other compound value is false. -/
theorem clip_forward_returns_pair_counterexample :
    towerPatch.forward (ImagesIn.tensor sampleImage) =
      Except.ok (FeaturesOut.tensor samplePatchFeature,
                 FeaturesOut.tensor samplePatchFeature) := by decide

/-- C1 (amended): every successful CLIPVisionTower.forward call returns a
pair whose two components are the same features value; within that pair
the features are a single tensor when the input is a batched tensor, and
a list with exactly one feature per input image when the input is a list
of per-image tensors. -/
theorem clip_forward_pair_mirrors_input :
    ∀ (t : CLIPVisionTower) (images : ImagesIn) (out : FeaturesOut × FeaturesOut),
      t.forward images = Except.ok out →
      out.1 = out.2 ∧
      (∀ img, images = ImagesIn.tensor img → ∃ h, out.1 = FeaturesOut.tensor h) ∧
      (∀ imgs, images = ImagesIn.list imgs →
        ∃ hs, out.1 = FeaturesOut.list hs ∧ hs.length = imgs.length) := by
  intro t images out hfwd
  unfold CLIPVisionTower.forward at hfwd
  cases hv : t.vision_tower with
  | none =>
      rw [hv] at hfwd
      exact absurd hfwd (by simp [except_bind_error])
  | some m =>
      rw [hv] at hfwd
      cases images with
      | tensor img =>
          replace hfwd :
              (t.feature_select (m.run (img.to m.device m.dtype)) >>= fun h =>
                Except.ok (FeaturesOut.tensor (h.toDtype img.dtype),
                           FeaturesOut.tensor (h.toDtype img.dtype))) =
              Except.ok out := hfwd
          cases hfe : t.feature_select (m.run (img.to m.device m.dtype)) with
          | error e =>
              rw [hfe] at hfwd
              exact absurd hfwd (by simp [except_bind_error])
          | ok h =>
              rw [hfe, except_bind_ok] at hfwd
              injection hfwd with hout
              refine ⟨?_, ?_, ?_⟩
              · rw [← hout]
              · intro img' heq
                cases heq
                exact ⟨h.toDtype img.dtype, by rw [← hout]⟩
              · intro imgs heq
                exact ImagesIn.noConfusion heq
      | list imgs =>
          replace hfwd :
              (t.forwardList m imgs >>= fun l =>
                Except.ok (FeaturesOut.list l, FeaturesOut.list l)) =
              Except.ok out := hfwd
          cases hl : t.forwardList m imgs with
          | error e =>
              rw [hl] at hfwd
              exact absurd hfwd (by simp [except_bind_error])
          | ok l =>
              rw [hl, except_bind_ok] at hfwd
              injection hfwd with hout
              refine ⟨?_, ?_, ?_⟩
              · rw [← hout]
              · intro img heq
                exact ImagesIn.noConfusion heq
              · intro imgs' heq
                cases heq
                exact ⟨l, by rw [← hout],
                  (forwardList_dtype t m imgs l hl).length_eq⟩

/-- C1 (amended) witness: at the concrete tower and batched input, the
returned value is the pair holding the same feature tensor twice. -/
theorem clip_forward_pair_mirrors_input_witness :
    (FeaturesOut.tensor samplePatchFeature, FeaturesOut.tensor samplePatchFeature).1 =
      (FeaturesOut.tensor samplePatchFeature, FeaturesOut.tensor samplePatchFeature).2 ∧
    ∃ h, (FeaturesOut.tensor samplePatchFeature,
          FeaturesOut.tensor samplePatchFeature).1 = FeaturesOut.tensor h :=
  ⟨(clip_forward_pair_mirrors_input towerPatch (ImagesIn.tensor sampleImage)
      (FeaturesOut.tensor samplePatchFeature, FeaturesOut.tensor samplePatchFeature)
      (by decide)).1,
   (clip_forward_pair_mirrors_input towerPatch (ImagesIn.tensor sampleImage)
      (FeaturesOut.tensor samplePatchFeature, FeaturesOut.tensor samplePatchFeature)
      (by decide)).2.1 sampleImage rfl⟩

/-- A load_model step preserves the config-availability invariant of a
CLIP tower. -/
theorem clip_config_after_load (env : Env) (t : CLIPVisionTower) (dm : Option Device)
    (IH : (t.is_loaded = false → t.cfg_only.isSome = true ∧ t.config = t.cfg_only) ∧
          (t.is_loaded = true → ∃ m, t.vision_tower = some m ∧ t.config = some m.config)) :
    ((t.load_model env dm).state.is_loaded = false →
      (t.load_model env dm).state.cfg_only.isSome = true ∧
      (t.load_model env dm).state.config = (t.load_model env dm).state.cfg_only) ∧
    ((t.load_model env dm).state.is_loaded = true →
      ∃ m, (t.load_model env dm).state.vision_tower = some m ∧
        (t.load_model env dm).state.config = some m.config) := by
  by_cases h : t.is_loaded
  · have hstate : (t.load_model env dm).state = t := by
      simp [CLIPVisionTower.load_model, h]
    rw [hstate]
    exact IH
  · constructor
    · intro hfalse
      exfalso
      revert hfalse
      simp [CLIPVisionTower.load_model, h]
    · intro _
      refine ⟨(env.clipVisionModel t.vision_tower_name dm).requires_grad_ false, ?_, ?_⟩ <;>
        simp [CLIPVisionTower.load_model, CLIPVisionTower.config, h]

/-- A freshly constructed CLIP tower satisfies the config-availability
invariant in each of the three constructor branches. -/
theorem clip_config_after_init (env : Env) (name : String) (args : Args)
    (delay_load : Bool) :
    ((CLIPVisionTower.init env name args delay_load).is_loaded = false →
      (CLIPVisionTower.init env name args delay_load).cfg_only.isSome = true ∧
      (CLIPVisionTower.init env name args delay_load).config =
        (CLIPVisionTower.init env name args delay_load).cfg_only) ∧
    ((CLIPVisionTower.init env name args delay_load).is_loaded = true →
      ∃ m, (CLIPVisionTower.init env name args delay_load).vision_tower = some m ∧
        (CLIPVisionTower.init env name args delay_load).config = some m.config) := by
  by_cases hd : delay_load
  · by_cases hu : args.unfreeze_mm_vision_tower.getD false
    · constructor
      · intro hfalse
        exfalso
        revert hfalse
        simp [CLIPVisionTower.init, CLIPVisionTower.load_model, hd, hu]
      · intro _
        refine ⟨(env.clipVisionModel name none).requires_grad_ false, ?_, ?_⟩ <;>
          simp [CLIPVisionTower.init, CLIPVisionTower.load_model,
            CLIPVisionTower.config, hd, hu]
    · constructor
      · intro _
        constructor <;>
          simp [CLIPVisionTower.init, CLIPVisionTower.load_model,
            CLIPVisionTower.config, hd, hu]
      · intro htrue
        exfalso
        revert htrue
        simp [CLIPVisionTower.init, CLIPVisionTower.load_model, hd, hu]
  · constructor
    · intro hfalse
      exfalso
      revert hfalse
      simp [CLIPVisionTower.init, CLIPVisionTower.load_model, hd]
    · intro _
      refine ⟨(env.clipVisionModel name none).requires_grad_ false, ?_, ?_⟩ <;>
        simp [CLIPVisionTower.init, CLIPVisionTower.load_model,
          CLIPVisionTower.config, hd]

/-- A load_model step preserves the config-availability invariant of a
Florence tower. -/
theorem florence_config_after_load (env : Env) (t : FlorenceVisionTower)
    (dm : Option Device)
    (IH : (t.is_loaded = false → t.cfg_only.isSome = true ∧ t.config = t.cfg_only) ∧
          (t.is_loaded = true → ∃ m, t.vision_tower = some m ∧ t.config = some m.config)) :
    ((t.load_model env dm).state.is_loaded = false →
      (t.load_model env dm).state.cfg_only.isSome = true ∧
      (t.load_model env dm).state.config = (t.load_model env dm).state.cfg_only) ∧
    ((t.load_model env dm).state.is_loaded = true →
      ∃ m, (t.load_model env dm).state.vision_tower = some m ∧
        (t.load_model env dm).state.config = some m.config) := by
  by_cases h : t.is_loaded
  · have hstate : (t.load_model env dm).state = t := by
      simp [FlorenceVisionTower.load_model, h]
    rw [hstate]
    exact IH
  · constructor
    · intro hfalse
      exfalso
      revert hfalse
      simp [FlorenceVisionTower.load_model, h]
    · intro _
      refine ⟨((env.autoModelForCausalLM t.vision_tower_name).toDtype
          Dtype.bfloat16).requires_grad_ false, ?_, ?_⟩ <;>
        simp [FlorenceVisionTower.load_model, FlorenceVisionTower.config, h]

/-- A freshly constructed Florence tower satisfies the config-availability
invariant (its constructor always loads). -/
theorem florence_config_after_init (env : Env) (name : String) (args : Args)
    (delay_load : Bool) :
    (((FlorenceVisionTower.init env name args delay_load).state.is_loaded = false →
      (FlorenceVisionTower.init env name args delay_load).state.cfg_only.isSome = true ∧
      (FlorenceVisionTower.init env name args delay_load).state.config =
        (FlorenceVisionTower.init env name args delay_load).state.cfg_only) ∧
    ((FlorenceVisionTower.init env name args delay_load).state.is_loaded = true →
      ∃ m, (FlorenceVisionTower.init env name args delay_load).state.vision_tower = some m ∧
        (FlorenceVisionTower.init env name args delay_load).state.config =
          some m.config)) := by
  constructor
  · intro hfalse
    exfalso
    revert hfalse
    by_cases hd : delay_load <;> by_cases hu : args.unfreeze_mm_vision_tower.getD false <;>
      simp [FlorenceVisionTower.init, FlorenceVisionTower.load_model, hd, hu]
  · intro _
    refine ⟨((env.autoModelForCausalLM name).toDtype Dtype.bfloat16).requires_grad_
      false, ?_, ?_⟩ <;>
      by_cases hd : delay_load <;> by_cases hu : args.unfreeze_mm_vision_tower.getD false <;>
        simp [FlorenceVisionTower.init, FlorenceVisionTower.load_model,
          FlorenceVisionTower.config, hd, hu]

/-- C2: in every reachable state of either tower, the config accessor
returns the cached pre-load config (which is set) whenever is_loaded is
false, and the live loaded model's config whenever is_loaded is true;
reading config never observes an unset configuration. -/
theorem config_always_available :
    (∀ (env : Env) (t : CLIPVisionTower), CLIPVisionTower.Reachable env t →
      (t.is_loaded = false → t.cfg_only.isSome = true ∧ t.config = t.cfg_only) ∧
      (t.is_loaded = true → ∃ m, t.vision_tower = some m ∧ t.config = some m.config)) ∧
    (∀ (env : Env) (t : FlorenceVisionTower), FlorenceVisionTower.Reachable env t →
      (t.is_loaded = false → t.cfg_only.isSome = true ∧ t.config = t.cfg_only) ∧
      (t.is_loaded = true → ∃ m, t.vision_tower = some m ∧ t.config = some m.config)) := by
  constructor
  · intro env t hr
    induction hr with
    | ctor name args delay_load => exact clip_config_after_init env name args delay_load
    | load t dm _ ih => exact clip_config_after_load env t dm ih
  · intro env t hr
    induction hr with
    | ctor name args delay_load => exact florence_config_after_init env name args delay_load
    | load t dm _ ih => exact florence_config_after_load env t dm ih

/-- C2 witness: a delay-loaded concrete CLIP tower is unloaded yet its
config reads the set cached pre-load config, and a constructed concrete
Florence tower is loaded and its config reads the live model's config. -/
theorem config_always_available_witness :
    ((CLIPVisionTower.init sampleEnv "clip" sampleArgs true).cfg_only.isSome = true ∧
     (CLIPVisionTower.init sampleEnv "clip" sampleArgs true).config =
       (CLIPVisionTower.init sampleEnv "clip" sampleArgs true).cfg_only) ∧
    (∃ m, (FlorenceVisionTower.init sampleEnv "florence" sampleArgs true).state.vision_tower =
        some m ∧
      (FlorenceVisionTower.init sampleEnv "florence" sampleArgs true).state.config =
        some m.config) :=
  ⟨(config_always_available.1 sampleEnv _
      (CLIPVisionTower.Reachable.ctor "clip" sampleArgs true)).1 (by decide),
   (config_always_available.2 sampleEnv _
      (FlorenceVisionTower.Reachable.ctor "florence" sampleArgs true)).2 (by decide)⟩
